import Mathlib

/-!
Verification of the Lumi technical-test web application.

The development shallowly embeds the client-side form handlers
(`ProfileForm` in the profile component, `SignInForm` in
`src/front/src/components/Forms/SignIn.tsx`) and the Express billet
router (`src/back/src/modules/billet/billet.routes.ts`) as pure Lean
functions over explicit component state, and proves the documented
properties about them.
-/

namespace Lumi

/-! Files and the FileReader data-URL encoding.

A selected file, as the DOM hands it to the change handler: a MIME type
and its byte contents.  `file.size` is the byte length of the contents.
`FileReader.readAsDataURL` produces `data:<mime>;base64,<base64 of bytes>`.
-/

structure FileData where
  mime : String
  content : List (Fin 256)
deriving DecidableEq, Repr

def fileSize (f : FileData) : Nat := f.content.length

def base64Alphabet : List Char :=
  "ABCDEFGHIJKLMNOPQRSTUVWXYZabcdefghijklmnopqrstuvwxyz0123456789+/".toList

def base64Digit (n : Nat) : Char := base64Alphabet.getD n '='

def base64Chunks : List (Fin 256) → List Char
  | [] => []
  | [b0] =>
      [base64Digit (b0.val / 4), base64Digit (b0.val % 4 * 16), '=', '=']
  | [b0, b1] =>
      [base64Digit (b0.val / 4), base64Digit (b0.val % 4 * 16 + b1.val / 16),
       base64Digit (b1.val % 16 * 4), '=']
  | b0 :: b1 :: b2 :: rest =>
      base64Digit (b0.val / 4) :: base64Digit (b0.val % 4 * 16 + b1.val / 16) ::
      base64Digit (b1.val % 16 * 4 + b2.val / 64) :: base64Digit (b2.val % 64) ::
      base64Chunks rest

def base64Encode (bytes : List (Fin 256)) : String :=
  String.mk (base64Chunks bytes)

def readAsDataURL (f : FileData) : String :=
  "data:" ++ f.mime ++ ";base64," ++ base64Encode f.content

/-! Profile form component state.

State hooks of `ProfileForm`: `preview`, `selectedFile`, `error`,
`success`, `initialData`, plus the react-hook-form watched fields
`watch('name')` / `watch('email')`, the TanStack query result `data`
and the mutation's `isPending` flag.
-/

structure ProfileData where
  id : String
  name : String
  email : String
  profilePicture : Option String
deriving DecidableEq, Repr

structure ProfileState where
  preview : String
  selectedFile : Option String
  error : Option String
  success : Option String
  initialData : Option ProfileData
  queryData : Option ProfileData
  watchedName : String
  watchedEmail : String
  isPending : Bool
deriving DecidableEq, Repr

/-- The error message set by `handleImageChange` for oversized files. -/
def oversizedImageMsg : String := "Image size should not exceed 5mb"

/-- Handler `handleImageChange` (profile component, lines 67–84): takes the
`files` list of the change event.  With no file it does nothing.  An
oversized file (`file.size > 5000 * 1024`) only sets the error message.
Otherwise the FileReader runs and its `onloadend` stores the data URL in
both `selectedFile` and `preview`. -/
def handleImageChange (s : ProfileState) (files : List FileData) : ProfileState :=
  match files.head? with
  | none => s
  | some file =>
    if fileSize file > 5000 * 1024 then
      { s with error := some oversizedImageMsg }
    else
      let base64String := readAsDataURL file
      { s with selectedFile := some base64String, preview := base64String }

/-- Predicate `isFormChanged` (lines 115–120): false when nothing was fetched yet,
otherwise true iff the watched name or email differs from the fetched
initial data or a new picture file is pending. -/
def isFormChanged (s : ProfileState) : Bool :=
  match s.initialData with
  | none => false
  | some d =>
      (s.watchedName != d.name) || (s.watchedEmail != d.email) || (s.selectedFile != none)

/-- Disabled condition of the submit button (lines 145–148 pass
`isPending` and `!data || !isFormChanged()`; the button is disabled when
`isPending || isDisabled`). -/
def submitButtonDisabled (s : ProfileState) : Bool :=
  s.isPending || (s.queryData.isNone || !isFormChanged s)

/-! Profile update submission. -/

/-- Body of the `updateUserProfile` request (mutationFn, lines 86–100):
exactly the three fields forwarded from the mutation argument. -/
structure UpdateProfileBody where
  name : String
  email : String
  profilePicture : Option String
deriving DecidableEq, Repr

/-- JavaScript `s || undefined` on a nullable string: `null` and the
empty string are falsy and become `undefined`. -/
def jsOrUndefined : Option String → Option String
  | none => none
  | some s => if s == "" then none else some s

/-- Handler `onSubmit` (lines 102–113): the argument passed to `mutate`, built
from the session id, the form fields and `selectedFile || undefined`. -/
def onSubmitMutateArg (sessionId name email : String) (selectedFile : Option String) :
    ProfileData :=
  { id := sessionId, name := name, email := email,
    profilePicture := jsOrUndefined selectedFile }

/-- Function `mutationFn` (lines 86–100): forwards name, email and
profilePicture of the mutation argument as the request body. -/
def mutationBody (d : ProfileData) : UpdateProfileBody :=
  { name := d.name, email := d.email, profilePicture := d.profilePicture }

/-- The body actually sent on a submission. -/
def submittedBody (sessionId name email : String) (selectedFile : Option String) :
    UpdateProfileBody :=
  mutationBody (onSubmitMutateArg sessionId name email selectedFile)

/-! Sign-in flow (`handleSignIn`, SignIn.tsx lines 35–64).

The handler's interactions with its environment: the reCAPTCHA widget
(`executeAsync`) and the NextAuth `signIn` call.  Each may return a
value or throw; both are modelled by behaviour datatypes, and one run
of the handler is a pure function from the environment's behaviour to
the observable outcome. -/

/-- JavaScript truthiness of a `string | null | undefined` value:
`null`, `undefined` and the empty string are falsy. -/
def jsTruthyStr : Option String → Bool
  | none => false
  | some s => s != ""

/-- Behaviour of `recaptchaRef.current?.executeAsync()`: it resolves to
a token, to `null`/`undefined` (modelled as `resolves none`), or the
promise rejects. -/
inductive CaptchaBehavior where
  | resolves (token : Option String)
  | raises
deriving DecidableEq, Repr

/-- The object resolved by `signIn('user-login', …)`: possibly
`undefined`, otherwise carrying a nullable `error` string. -/
structure SignInResponse where
  error : Option String
deriving DecidableEq, Repr

/-- Behaviour of the `signIn` call: resolves (possibly to `undefined`)
or the promise rejects (e.g. a network error). -/
inductive SignInBehavior where
  | resolves (response : Option SignInResponse)
  | raises
deriving DecidableEq, Repr

structure SignInEnv where
  captcha : CaptchaBehavior
  signIn : SignInBehavior
deriving DecidableEq, Repr

/-- Observable outcome of one run of `handleSignIn`: whether `signIn`
was invoked, the list of `setError` calls made, the target of a
`router.replace` if any, and the final `isSubmitting` flag. -/
structure SignInRun where
  signInCalled : Bool
  errorsSet : List String
  redirectTo : Option String
  isSubmitting : Bool
deriving DecidableEq, Repr

def captchaFailMsg : String :=
  "Falha na verificação de segurança. Por favor, tente novamente."

def signInCatchMsg : String := "Falha ao entrar. Por favor, tente novamente."

def signInHomeRoute : String := "/user/home"

/-- Field access `response?.error` of the resolved sign-in response. -/
def responseError : Option SignInResponse → Option String
  | none => none
  | some r => r.error

/-- Handler `handleSignIn` (SignIn.tsx lines 35–64).  `setIsSubmitting(true)`;
await `executeAsync`; a falsy token sets the captcha error and returns;
otherwise `signIn` is awaited: a truthy `response?.error` sets that
error and returns, else `router.replace('/user/home')`.  Any throw is
caught and sets the generic error; the `finally` block resets
`isSubmitting` on every path. -/
def handleSignIn (env : SignInEnv) : SignInRun :=
  match env.captcha with
  | .raises =>
      { signInCalled := false, errorsSet := [signInCatchMsg],
        redirectTo := none, isSubmitting := false }
  | .resolves token =>
      if !jsTruthyStr token then
        { signInCalled := false, errorsSet := [captchaFailMsg],
          redirectTo := none, isSubmitting := false }
      else
        match env.signIn with
        | .raises =>
            { signInCalled := true, errorsSet := [signInCatchMsg],
              redirectTo := none, isSubmitting := false }
        | .resolves response =>
            match responseError response with
            | some e =>
                if e != "" then
                  { signInCalled := true, errorsSet := [e],
                    redirectTo := none, isSubmitting := false }
                else
                  { signInCalled := true, errorsSet := [],
                    redirectTo := some signInHomeRoute, isSubmitting := false }
            | none =>
                { signInCalled := true, errorsSet := [],
                  redirectTo := some signInHomeRoute, isSubmitting := false }

/-- A run succeeds when a truthy captcha token was obtained and the
sign-in call resolved without a truthy error. -/
def runSucceeds (env : SignInEnv) : Bool :=
  (match env.captcha with
   | .resolves token => jsTruthyStr token
   | .raises => false) &&
  (match env.signIn with
   | .resolves response => !jsTruthyStr (responseError response)
   | .raises => false)

/-! Billet router (`billet.routes.ts`).

Express routes as verb + segment pattern + middleware chain + controller
method; dispatch finds the first route whose verb and pattern match. -/

inductive HttpVerb where
  | get
  | post
  | put
  | delete
deriving DecidableEq, Repr

inductive BilletHandler where
  | getAllBilletsByUserId
  | uploadBillet
  | getDownloadUrl
  | deleteBillet
deriving DecidableEq, Repr

/-- Multer storage engine; `multer.memoryStorage()` buffers every
uploaded file fully in memory. -/
inductive StorageEngine where
  | memoryStorage
  | diskStorage
deriving DecidableEq, Repr

structure MulterInstance where
  storage : StorageEngine
deriving DecidableEq, Repr

/-- Upload instance of line 9: `multer` configured with `multer.memoryStorage()`. -/
def upload : MulterInstance := { storage := .memoryStorage }

/-- Route middleware: `upload.single(field)` accepts a single multipart
file under the given field name. -/
inductive Middleware where
  | single (m : MulterInstance) (field : String)
deriving DecidableEq, Repr

/-- A segment of an Express path pattern: a literal or a `:name` param. -/
inductive Seg where
  | lit (s : String)
  | param (name : String)
deriving DecidableEq, Repr

structure Route where
  verb : HttpVerb
  pattern : List Seg
  middlewares : List Middleware
  handler : BilletHandler
deriving DecidableEq, Repr

/-- The billet router (lines 13–17): the four registered routes in
registration order. -/
def billetRouter : List Route :=
  [ { verb := .get, pattern := [.lit "billet"],
      middlewares := [], handler := .getAllBilletsByUserId },
    { verb := .post, pattern := [.lit "billet"],
      middlewares := [.single upload "file"], handler := .uploadBillet },
    { verb := .get, pattern := [.lit "billet", .lit "download", .param "fileName"],
      middlewares := [], handler := .getDownloadUrl },
    { verb := .delete, pattern := [.lit "billet", .param "id"],
      middlewares := [], handler := .deleteBillet } ]

/-- Express pattern matching: a pattern matches a concrete segment list
of the same length, literals exactly and params any segment. -/
def matchSegs : List Seg → List String → Bool
  | [], [] => true
  | .lit s :: ps, x :: xs => (s == x) && matchSegs ps xs
  | .param _ :: ps, _ :: xs => matchSegs ps xs
  | _, _ => false

/-- Dispatch of a request against the billet router: the first route
with the request's verb whose pattern matches the path. -/
def dispatch (v : HttpVerb) (path : List String) : Option Route :=
  billetRouter.find? (fun r => r.verb == v && matchSegs r.pattern path)

/-! Transient popups (auto-dismiss).

The profile component's effects on `error` and `success` (lines 53–65)
start a 5000 ms `setTimeout` clearing the message whenever one is set.
An effect is modelled as the timer it starts, if any: the delay in
milliseconds paired with the value the timer writes when it fires. -/

/-- Effect `useEffect` on `error` (profile component, lines 53–58). -/
def profileErrorDismissEffect : Option String → Option (Nat × Option String)
  | some _ => some (5000, none)
  | none => none

/-- Effect `useEffect` on `success` (profile component, lines 60–65). -/
def profileSuccessDismissEffect : Option String → Option (Nat × Option String)
  | some _ => some (5000, none)
  | none => none

/-- Modelled from the spec: the `PopUpError` popup component
(`../PopUps/Error`, source not provided) renders a transient popup that
auto-dismisses after 5 s, firing `onClose` to clear the message. -/
def popUpErrorDismissDelayMs : Nat := 5000

/-- The sign-in form renders `PopUpError` with `onClose` setting the
error back to `''` whenever `error` is truthy (SignIn.tsx line 84); the
popup's auto-dismissal (modelled from the spec) thus starts a timer
clearing the message. -/
def signInErrorRenderEffect (error : String) : Option (Nat × String) :=
  if error != "" then some (popUpErrorDismissDelayMs, "") else none

/-! Sample inputs used by witnesses and counterexamples. -/

def sampleFile : FileData := { mime := "image/png", content := [1, 2, 3] }

/-- A file of 5 100 000 bytes: larger than 5 MB in the decimal (SI)
sense, yet within the code's `5000 * 1024 = 5 120 000` byte limit. -/
def overDecimalFile : FileData :=
  { mime := "image/png", content := List.replicate 5100000 0 }

/-- A file of 5 200 000 bytes: within 5 MB in the binary (MiB) sense,
yet above the code's `5000 * 1024` byte limit. -/
def underBinaryFile : FileData :=
  { mime := "image/png", content := List.replicate 5200000 0 }

/-- A file of 5 120 001 bytes, just above the code's limit. -/
def overLimitFile : FileData :=
  { mime := "image/png", content := List.replicate 5120001 0 }

def sampleState : ProfileState :=
  { preview := "/assets/icons/profile-default-placeholder.png",
    selectedFile := none, error := none, success := none,
    initialData := none, queryData := none,
    watchedName := "", watchedEmail := "", isPending := false }

def sampleProfile : ProfileData :=
  { id := "u1", name := "Alice", email := "alice@example.com", profilePicture := none }

/-- Profile state right after fetching `sampleProfile`, with nothing
edited yet. -/
def unchangedState : ProfileState :=
  { sampleState with
    initialData := some sampleProfile, queryData := some sampleProfile,
    watchedName := sampleProfile.name, watchedEmail := sampleProfile.email }

/-- Sign-in environment where the CAPTCHA widget yields no token. -/
def envNoToken : SignInEnv := ⟨.resolves none, .resolves none⟩

/-- Sign-in environment with a token but rejected credentials. -/
def envBadCreds : SignInEnv :=
  ⟨.resolves (some "tok"), .resolves (some ⟨some "CredentialsSignin"⟩)⟩

/-- Sign-in environment with a token and accepted credentials. -/
def envOk : SignInEnv := ⟨.resolves (some "tok"), .resolves none⟩

/-! Helper lemmas. -/

theorem length_readAsDataURL (f : FileData) : 5 ≤ (readAsDataURL f).length := by
  rw [readAsDataURL, String.length_append, String.length_append, String.length_append]
  have hlen : ("data:" : String).length = 5 := rfl
  omega

theorem readAsDataURL_ne_empty (f : FileData) : readAsDataURL f ≠ "" := by
  intro h
  have h0 := length_readAsDataURL f
  rw [h] at h0
  simp [String.length] at h0

theorem handleImageChange_small (s : ProfileState) (f : FileData)
    (h : fileSize f ≤ 5000 * 1024) :
    handleImageChange s [f] =
      { s with preview := readAsDataURL f, selectedFile := some (readAsDataURL f) } := by
  simp only [handleImageChange, List.head?]
  rw [if_neg (by omega)]

theorem handleImageChange_large (s : ProfileState) (f : FileData)
    (h : 5000 * 1024 < fileSize f) :
    handleImageChange s [f] = { s with error := some oversizedImageMsg } := by
  simp only [handleImageChange, List.head?]
  rw [if_pos (by omega)]

theorem fileSize_overDecimalFile : fileSize overDecimalFile = 5100000 :=
  List.length_replicate 5100000 0

theorem fileSize_underBinaryFile : fileSize underBinaryFile = 5200000 :=
  List.length_replicate 5200000 0

theorem fileSize_overLimitFile : fileSize overLimitFile = 5120001 :=
  List.length_replicate 5120001 0

/-! Claim theorems. -/

/-- C1 (counterexample): the claim reads the cap as 5 MB, but the code
compares against `5000 * 1024 = 5 120 000` bytes, which is neither
5 MB decimal (5 000 000) nor 5 MiB (5 242 880).  A 5 100 000-byte file
exceeds 5 MB decimal yet is read and updates the preview with no error,
and a 5 200 000-byte file is within 5 MiB yet is rejected with the error
and no update. -/
theorem image_limit_boundary_counterexample :
    (5 * 1000 * 1000 < fileSize overDecimalFile ∧
      (handleImageChange sampleState [overDecimalFile]).error = none ∧
      (handleImageChange sampleState [overDecimalFile]).preview =
        readAsDataURL overDecimalFile ∧
      (handleImageChange sampleState [overDecimalFile]).selectedFile =
        some (readAsDataURL overDecimalFile)) ∧
    (fileSize underBinaryFile ≤ 5 * 1024 * 1024 ∧
      (handleImageChange sampleState [underBinaryFile]).error =
        some oversizedImageMsg ∧
      (handleImageChange sampleState [underBinaryFile]).preview =
        sampleState.preview ∧
      (handleImageChange sampleState [underBinaryFile]).selectedFile = none) := by
  have h1 : handleImageChange sampleState [overDecimalFile] =
      { sampleState with
        preview := readAsDataURL overDecimalFile,
        selectedFile := some (readAsDataURL overDecimalFile) } :=
    handleImageChange_small _ _ (by rw [fileSize_overDecimalFile]; omega)
  have h2 : handleImageChange sampleState [underBinaryFile] =
      { sampleState with error := some oversizedImageMsg } :=
    handleImageChange_large _ _ (by rw [fileSize_underBinaryFile]; omega)
  rw [fileSize_overDecimalFile, fileSize_underBinaryFile, h1, h2]
  refine ⟨⟨by omega, rfl, rfl, rfl⟩, ⟨by omega, rfl, rfl, rfl⟩⟩

/-- C1 (amended): `handleImageChange` enforces a byte limit of
`5000 * 1024 = 5 120 000` bytes.  Any selected file above that limit
only sets the oversized-image error, leaving preview and pending upload
untouched; any file at or below it is read and sets both the preview and
the pending upload to the file's data URL, leaving the error untouched. -/
theorem image_size_limit_5120000 (s : ProfileState) (f : FileData) :
    (5000 * 1024 < fileSize f →
      handleImageChange s [f] = { s with error := some oversizedImageMsg }) ∧
    (fileSize f ≤ 5000 * 1024 →
      handleImageChange s [f] =
        { s with
          preview := readAsDataURL f,
          selectedFile := some (readAsDataURL f) }) :=
  ⟨handleImageChange_large s f, handleImageChange_small s f⟩

/-- C1 witness: both branches of the amended claim at concrete files. -/
theorem image_size_limit_5120000_witness :
    (5000 * 1024 < fileSize overLimitFile ∧
      handleImageChange sampleState [overLimitFile] =
        { sampleState with error := some oversizedImageMsg }) ∧
    (fileSize sampleFile ≤ 5000 * 1024 ∧
      handleImageChange sampleState [sampleFile] =
        { sampleState with
          preview := readAsDataURL sampleFile,
          selectedFile := some (readAsDataURL sampleFile) }) := by
  have hbig : 5000 * 1024 < fileSize overLimitFile := by
    rw [fileSize_overLimitFile]; omega
  have hsmall : fileSize sampleFile ≤ 5000 * 1024 := by decide
  exact ⟨⟨hbig, (image_size_limit_5120000 sampleState overLimitFile).1 hbig⟩,
    ⟨hsmall, (image_size_limit_5120000 sampleState sampleFile).2 hsmall⟩⟩

/-- C2: if the CAPTCHA widget resolves to `null`/`undefined`, `signIn`
is never invoked and the captcha error message is set; conversely,
`signIn` is invoked only in runs that first obtained a non-empty
token. -/
theorem signIn_requires_captcha_token (env : SignInEnv) :
    (env.captcha = .resolves none →
      (handleSignIn env).signInCalled = false ∧
      (handleSignIn env).errorsSet = [captchaFailMsg]) ∧
    ((handleSignIn env).signInCalled = true →
      ∃ t, env.captcha = .resolves (some t) ∧ t ≠ "") := by
  obtain ⟨c, si⟩ := env
  constructor
  · intro h
    simp only at h
    subst h
    simp [handleSignIn, jsTruthyStr]
  · intro h
    cases c with
    | raises => simp [handleSignIn] at h
    | resolves token =>
      cases token with
      | none => simp [handleSignIn, jsTruthyStr] at h
      | some t =>
        by_cases ht : t = ""
        · subst ht
          simp [handleSignIn, jsTruthyStr] at h
        · exact ⟨t, rfl, ht⟩

/-- C2 witness: with the widget resolving to `null` and credentials
that would succeed, the sign-in call is still not made and the captcha
error appears. -/
theorem signIn_requires_captcha_token_witness :
    (handleSignIn envNoToken).signInCalled = false ∧
    (handleSignIn envNoToken).errorsSet = [captchaFailMsg] :=
  (signIn_requires_captcha_token envNoToken).1 rfl

/-- C4: every run of `handleSignIn` ends with `isSubmitting` reset to
`false`; a successful run (truthy captcha token, sign-in resolving
without a truthy error) sets no error and redirects to `/user/home`;
every other run sets exactly one error message and does not redirect. -/
theorem handleSignIn_outcome (env : SignInEnv) :
    (handleSignIn env).isSubmitting = false ∧
    (runSucceeds env = true →
      (handleSignIn env).errorsSet = [] ∧
      (handleSignIn env).redirectTo = some signInHomeRoute) ∧
    (runSucceeds env = false →
      (handleSignIn env).errorsSet.length = 1 ∧
      (handleSignIn env).redirectTo = none) := by
  obtain ⟨c, si⟩ := env
  cases c with
  | raises => cases si <;> simp [handleSignIn, runSucceeds]
  | resolves token =>
    cases token with
    | none => cases si <;> simp [handleSignIn, runSucceeds, jsTruthyStr]
    | some t =>
      by_cases ht : t = ""
      · subst ht
        cases si <;> simp [handleSignIn, runSucceeds, jsTruthyStr]
      · cases si with
        | raises => simp [handleSignIn, runSucceeds, jsTruthyStr, ht]
        | resolves response =>
          cases response with
          | none =>
            simp [handleSignIn, runSucceeds, jsTruthyStr, responseError, ht]
          | some r =>
            obtain ⟨e⟩ := r
            cases e with
            | none =>
              simp [handleSignIn, runSucceeds, jsTruthyStr, responseError, ht]
            | some msg =>
              by_cases hm : msg = "" <;>
                simp [handleSignIn, runSucceeds, jsTruthyStr, responseError, ht, hm]

/-- C4 witness: a failing run (wrong credentials) sets exactly one error
and does not redirect, and a successful run redirects to `/user/home`
with no error; `isSubmitting` is `false` after both. -/
theorem handleSignIn_outcome_witness :
    ((handleSignIn envBadCreds).isSubmitting = false ∧
      (handleSignIn envBadCreds).errorsSet.length = 1 ∧
      (handleSignIn envBadCreds).redirectTo = none) ∧
    ((handleSignIn envOk).errorsSet = [] ∧
      (handleSignIn envOk).redirectTo = some signInHomeRoute) := by
  refine ⟨⟨(handleSignIn_outcome envBadCreds).1, ?_⟩, ?_⟩
  · exact (handleSignIn_outcome envBadCreds).2.2 (by decide)
  · exact (handleSignIn_outcome envOk).2.1 (by decide)

/-- C3: the submit button is disabled whenever the watched fields match
the fetched initial profile and no new picture is pending, and also
whenever nothing has been fetched at all. -/
theorem submit_disabled_when_unchanged (s : ProfileState) :
    ((∃ d, s.initialData = some d ∧ s.watchedName = d.name ∧
        s.watchedEmail = d.email ∧ s.selectedFile = none) ∨
      (s.queryData = none ∧ s.initialData = none)) →
    submitButtonDisabled s = true := by
  intro h
  rcases h with ⟨d, hd, hn, he, hf⟩ | ⟨hq, hi⟩
  · simp [submitButtonDisabled, isFormChanged, hd, hn, he, hf]
  · simp [submitButtonDisabled, isFormChanged, hq, hi]

/-- C3 witness: right after fetching a profile, with both fields
untouched and no picture selected, the button is disabled. -/
theorem submit_disabled_when_unchanged_witness :
    submitButtonDisabled unchangedState = true :=
  submit_disabled_when_unchanged unchangedState
    (Or.inl ⟨sampleProfile, rfl, rfl, rfl, rfl⟩)

/-- C5: the billet router registers exactly four routes; each declared
verb/path pair dispatches to its controller method, and sample requests
with any other verb on those paths (or re-using a path shape under a
wrong verb) match no route. -/
theorem billetRouter_four_routes :
    billetRouter.length = 4 ∧
    (dispatch .get ["billet"]).map Route.handler = some .getAllBilletsByUserId ∧
    (dispatch .post ["billet"]).map Route.handler = some .uploadBillet ∧
    (dispatch .get ["billet", "download", "conta.pdf"]).map Route.handler =
      some .getDownloadUrl ∧
    (dispatch .delete ["billet", "42"]).map Route.handler = some .deleteBillet ∧
    dispatch .put ["billet"] = none ∧
    dispatch .delete ["billet"] = none ∧
    dispatch .post ["billet", "download", "conta.pdf"] = none ∧
    dispatch .delete ["billet", "download", "conta.pdf"] = none ∧
    dispatch .put ["billet", "download", "conta.pdf"] = none ∧
    dispatch .get ["billet", "42"] = none ∧
    dispatch .post ["billet", "42"] = none ∧
    dispatch .put ["billet", "42"] = none := by
  decide

/-- C6: exactly one of the four billet routes carries middleware — the
POST `/billet` route, whose single middleware is `upload.single('file')`
— and the multer instance is configured with memory storage. -/
theorem upload_middleware_memory_storage :
    upload.storage = .memoryStorage ∧
    billetRouter.filter (fun r => !r.middlewares.isEmpty) =
      [ { verb := .post, pattern := [.lit "billet"],
          middlewares := [.single upload "file"], handler := .uploadBillet } ] ∧
    (dispatch .post ["billet"]).map Route.middlewares =
      some [.single upload "file"] := by
  decide

/-- C7: whenever a message is set, a 5000 ms timer clearing it is
started: the profile form's error and success effects do so directly,
and the sign-in form's rendered error popup (auto-dismissal modelled
from the spec) does so for any non-empty error; no timer is started when
no message is set. -/
theorem popups_auto_dismiss_after_5s (msg : String) :
    profileErrorDismissEffect (some msg) = some (5000, none) ∧
    profileSuccessDismissEffect (some msg) = some (5000, none) ∧
    profileErrorDismissEffect none = none ∧
    profileSuccessDismissEffect none = none ∧
    (msg ≠ "" → signInErrorRenderEffect msg = some (5000, "")) ∧
    signInErrorRenderEffect "" = none := by
  refine ⟨rfl, rfl, rfl, rfl, ?_, rfl⟩
  intro h
  simp [signInErrorRenderEffect, popUpErrorDismissDelayMs, h]

/-- C7 witness: the effects at the concrete message set by the sign-in
catch branch. -/
theorem popups_auto_dismiss_after_5s_witness :
    signInCatchMsg ≠ "" ∧
    profileErrorDismissEffect (some signInCatchMsg) = some (5000, none) ∧
    signInErrorRenderEffect signInCatchMsg = some (5000, "") := by
  have h : signInCatchMsg ≠ "" := by decide
  exact ⟨h, (popups_auto_dismiss_after_5s signInCatchMsg).1,
    (popups_auto_dismiss_after_5s signInCatchMsg).2.2.2.2.1 h⟩

/-- C8: a submission sends exactly the fields name, email and
profilePicture; the picture is the complete data URL of the newly
selected file when one was selected, and absent (`undefined`) when no
new file was selected. -/
theorem update_replaces_picture_wholesale (sessionId name email : String)
    (f : FileData) :
    submittedBody sessionId name email (some (readAsDataURL f)) =
      { name := name, email := email, profilePicture := some (readAsDataURL f) } ∧
    submittedBody sessionId name email none =
      { name := name, email := email, profilePicture := none } := by
  constructor
  · simp [submittedBody, mutationBody, onSubmitMutateArg, jsOrUndefined,
      beq_iff_eq, readAsDataURL_ne_empty f]
  · rfl

/-- C9: after a successful image selection (file within the limit whose
read completed), the pending upload equals the preview, and both hold
the data URL produced by the reader. -/
theorem preview_matches_pending_upload (s : ProfileState) (f : FileData)
    (h : fileSize f ≤ 5000 * 1024) :
    (handleImageChange s [f]).selectedFile =
      some ((handleImageChange s [f]).preview) ∧
    (handleImageChange s [f]).preview = readAsDataURL f := by
  rw [handleImageChange_small s f h]
  exact ⟨rfl, rfl⟩

/-- C9 witness: the invariant at a concrete three-byte file. -/
theorem preview_matches_pending_upload_witness :
    fileSize sampleFile ≤ 5000 * 1024 ∧
    (handleImageChange sampleState [sampleFile]).selectedFile =
      some ((handleImageChange sampleState [sampleFile]).preview) ∧
    (handleImageChange sampleState [sampleFile]).preview = readAsDataURL sampleFile :=
  ⟨by decide, preview_matches_pending_upload sampleState sampleFile (by decide)⟩

/-- C10: a change event with no file leaves the component state —
preview, pending upload, error, and everything else — unchanged. -/
theorem handleImageChange_no_file_frame (s : ProfileState) :
    handleImageChange s [] = s := rfl

end Lumi
